import Mathlib

/-!
Verification of the discovery-cookbook core against its specification.

The development shallowly embeds the two core mechanisms of the repository
and the favorites batch-hydration page:

* `src/hooks/useFetch.ts` — the Request-State Tracker: React state triple
  `(data, error, loading)` plus the effect body `fetchData` and its
  `AbortController` cleanup;
* `src/hooks/useLocalStorage.ts` and `src/contexts/FavoritesContext.tsx` —
  the Persisted Set Store and the favorites access point;
* `src/pages/FavoritesPage.tsx` — the batch detail fetch, `Promise.all`,
  and the page render; `src/pages/CategoryPage.tsx` — the category render.

React `setState` calls are modelled as state-transformer steps; the
asynchronous body of an effect is split into its synchronous prefix (the
mutations issued before the first `await`) and its settlement tail (the
mutations issued after the awaited transport resolves), so that
interleavings of superseded and current runs can be expressed.
-/

namespace Cookbook

/-- A recipe, identified by its `idMeal` field (the only field any claim
depends on; the remaining fields of `src/types` are presentation data). -/
structure Recipe where
  idMeal : String
  deriving DecidableEq, Repr

/-- The upstream response envelope `{ meals: T[] | null }`
(`RecipesByCategoryResponse` in `src/pages/CategoryPage.tsx`, lines 22–24).
`meals := none` models the JSON body `{ "meals": null }`. -/
structure MealsResponse where
  meals : Option (List Recipe)
  deriving DecidableEq, Repr

/-! ## Request-State Tracker (`src/hooks/useFetch.ts`) -/

/-- The tracker state: the three `useState` slots of `useFetch`
(`data`, `loading`, `error`; lines 28–34). -/
structure FetchState (α : Type) where
  data : Option α
  error : Option String
  loading : Bool
  deriving DecidableEq, Repr

/-- The initial tracker state: `data = null`, `loading = false`,
`error = null` (useFetch.ts lines 28–34). -/
def initState (α : Type) : FetchState α := { data := none, error := none, loading := false }

/-- How the awaited transport of one `fetchData` run resolves:
the rejection with name `AbortError` (the signal was aborted while the run
was awaiting `fetch` or `response.json()`), a non-abort rejection of
`fetch` itself, a response with `ok = false`, a non-abort rejection of
`response.json()`, or a parsed body. -/
inductive FetchResolution (α : Type) where
  | aborted
  | netError (msg : String)
  | httpError (status : Nat)
  | parseError (msg : String)
  | success (v : α)
  deriving DecidableEq, Repr

/-- The synchronous prefix of `fetchData` (useFetch.ts lines 59–60):
`setLoading(true); setError(null)` run before the first `await`. -/
def fetchStart {α : Type} (s : FetchState α) : FetchState α :=
  { s with loading := true, error := none }

/-- The settlement tail of `fetchData` (useFetch.ts lines 62–88): the
`try`/`catch`/`finally` continuation that runs once the awaited transport
resolves. An `AbortError` rejection skips `setError` (line 81) but still
runs the `finally` clause `setLoading(false)` (line 87); any other
rejection sets the error message (`err.message || 'Failed to fetch data'`,
line 82); a parsed body is stored with `setData(result)` (line 77). -/
def fetchSettle {α : Type} (r : FetchResolution α) (s : FetchState α) : FetchState α :=
  match r with
  | .aborted => { s with loading := false }
  | .netError m =>
      { s with error := some (if m.isEmpty then "Failed to fetch data" else m),
               loading := false }
  | .httpError st =>
      { s with error := some ("HTTP error! status: " ++ toString st), loading := false }
  | .parseError m =>
      { s with error := some (if m.isEmpty then "Failed to fetch data" else m),
               loading := false }
  | .success v => { s with data := some v, loading := false }

/-- The falsiness test `!url` on a `string | null` locator
(useFetch.ts line 38): true for `null` and for the empty string. -/
def isBlank : Option String → Bool
  | none => true
  | some u => u.isEmpty

/-- The synchronous part of the `useFetch` effect body on a locator
binding (useFetch.ts lines 36–92): a blank locator returns before any
state mutation; otherwise `fetchData()` starts and its synchronous prefix
applies. -/
def bindSync {α : Type} (url : Option String) (s : FetchState α) : FetchState α :=
  if isBlank url then s else fetchStart s

/-- Whether the effect issues a retrieval for a locator
(useFetch.ts lines 38–40 and 92): none for a blank locator, one otherwise. -/
def issuesRequest (url : Option String) : Bool :=
  !(isBlank url)

/-! ## Persisted Set Store (`src/hooks/useLocalStorage.ts`) -/

/-- Modelled from the spec: escaping of one character by the platform
serializer `JSON.stringify` (not part of this repository): a quote or a
backslash inside a string value is preceded by a backslash. -/
def escChar (c : Char) : List Char :=
  if c = '"' ∨ c = '\\' then ['\\', c] else [c]

/-- Modelled from the spec: the escaped text of a string value under
`JSON.stringify`. -/
def escString : List Char → List Char
  | [] => []
  | c :: cs => escChar c ++ escString cs

/-- Modelled from the spec: the text of one serialized array element up to
and including its closing quote. -/
def encodeItem (s : String) : List Char :=
  escString s.toList ++ ['"']

/-- Modelled from the spec: the serialized text following the first array
element: either the closing bracket, or a comma, the next element and the
rest. -/
def encodeRest : List String → List Char
  | [] => [']']
  | s :: rest => ',' :: '"' :: (encodeItem s ++ encodeRest rest)

/-- Modelled from the spec: `JSON.stringify` on an array of strings, the
serialization used by the durable slot (useLocalStorage.ts line 59). The
spec requires serialization to round-trip plain structural values; the
favorites slot only ever stores an array of strings. -/
def jsonStringify : List String → List Char
  | [] => ['[', ']']
  | s :: rest => '[' :: '"' :: (encodeItem s ++ encodeRest rest)

/-- Modelled from the spec: the string-value parser of `JSON.parse`,
positioned right after an opening quote; consumes up to and including the
matching unescaped closing quote and returns the decoded content and the
remaining text. -/
def parseString : List Char → Option (List Char × List Char)
  | [] => none
  | c :: rest =>
    if c = '\\' then
      match rest with
      | [] => none
      | d :: rest2 => (parseString rest2).map (fun p => (d :: p.1, p.2))
    else if c = '"' then some ([], rest)
    else (parseString rest).map (fun p => (c :: p.1, p.2))
termination_by structural l => l

/-- Modelled from the spec: the element-sequence parser of `JSON.parse`,
positioned right after the opening quote of an element; fuelled by the
length of the remaining text. -/
def parseItems : Nat → List Char → Option (List String)
  | 0, _ => none
  | fuel' + 1, l =>
    match parseString l with
    | none => none
    | some (s, rest) =>
      match rest with
      | [']'] => some [String.mk s]
      | ',' :: '"' :: rest2 =>
        match parseItems fuel' rest2 with
        | none => none
        | some ss => some (String.mk s :: ss)
      | _ => none
termination_by structural fuel _ => fuel

/-- Modelled from the spec: `JSON.parse` on the texts produced for
string-array values; any other text fails to parse (the real platform
parser accepts more shapes, but the slot only consults it through the
fallback of `useLocalStorage.ts` lines 36–41, where any failure or
foreign shape degrades to the initial value). -/
def jsonParse (t : List Char) : Option (List String) :=
  match t with
  | ['[', ']'] => some []
  | '[' :: '"' :: rest => parseItems (rest.length + 1) rest
  | _ => none

/-- The durable text store (`window.localStorage`): key-to-text contents
plus failure switches for its read and write operations (`getItem` and
`setItem` throwing, the cases caught at useLocalStorage.ts lines 37–41
and 60–63). -/
structure DurableStore where
  contents : String → Option (List Char)
  readFails : Bool
  writeFails : Bool

/-- Lazy slot initialization (useLocalStorage.ts lines 30–42): read the
durable store once; a missing key or an empty stored text falls back to
`initialValue` (the `item ? JSON.parse(item) : initialValue` conditional),
and a read or parse failure is caught and also falls back to
`initialValue`. -/
def slotInit (st : DurableStore) (key : String) (initialValue : List String) : List String :=
  if st.readFails then initialValue
  else
    match st.contents key with
    | none => initialValue
    | some item =>
      if item = [] then initialValue
      else
        match jsonParse item with
        | some v => v
        | none => initialValue

/-- A live slot: the in-memory current value (`storedValue`) together with
the durable store it writes through to. -/
structure SlotState where
  memory : List String
  store : DurableStore

/-- The slot's `setValue` (useLocalStorage.ts lines 50–64): compute
`valueToStore` from the previous in-memory value, update the in-memory
value, then write the serialized form to the durable store; a write
failure is caught and logged (the returned flag) and leaves the durable
contents unchanged, while the in-memory update — issued before the
write — stands. -/
def setValue (key : String) (f : List String → List String) (s : SlotState) :
    SlotState × Bool :=
  let valueToStore := f s.memory
  if s.store.writeFails then
    ({ s with memory := valueToStore }, true)
  else
    ({ memory := valueToStore,
       store := { s.store with
         contents := fun k =>
           if k = key then some (jsonStringify valueToStore) else s.store.contents k } },
     false)

/-! ## Favorites access point (`src/contexts/FavoritesContext.tsx`) -/

/-- The fixed durable key of the favorites slot
(FavoritesContext.tsx line 49). -/
def favoritesKey : String := "recipe-favorites"

/-- The updater passed to `setFavorites` by `addFavorite`
(FavoritesContext.tsx lines 56–65): a present id is returned unchanged,
otherwise it is appended at the end. -/
def addFavoriteUpdater (recipeId : String) (prev : List String) : List String :=
  if prev.contains recipeId then prev else prev ++ [recipeId]

/-- The updater passed to `setFavorites` by `removeFavorite`
(FavoritesContext.tsx lines 72–76): filter out the given id. -/
def removeFavoriteUpdater (recipeId : String) (prev : List String) : List String :=
  prev.filter (fun id => id != recipeId)

/-- `addFavorite` on the shared favorites slot: `setFavorites` with the
add updater, which persists through `setValue`. -/
def addFavorite (recipeId : String) (s : SlotState) : SlotState × Bool :=
  setValue favoritesKey (addFavoriteUpdater recipeId) s

/-- `removeFavorite` on the shared favorites slot. -/
def removeFavorite (recipeId : String) (s : SlotState) : SlotState × Bool :=
  setValue favoritesKey (removeFavoriteUpdater recipeId) s

/-- `isFavorite` (FavoritesContext.tsx lines 83–85): membership in the
current in-memory favorites array, no I/O. -/
def isFavorite (recipeId : String) (s : SlotState) : Bool :=
  s.memory.contains recipeId

/-- The `favorites` array exposed by the context value
(FavoritesContext.tsx lines 92–97): the current in-memory value. -/
def favoritesList (s : SlotState) : List String :=
  s.memory

/-- A slot over an empty, healthy durable store with the empty initial
value (the state of a fresh profile). -/
def emptySlot : SlotState :=
  { memory := [],
    store := { contents := fun _ => none, readFails := false, writeFails := false } }

/-! ## Batch favorites hydration (`src/pages/FavoritesPage.tsx`) -/

/-- How one favorite id's detail retrieval resolves at the transport
level: a non-abort rejection of `fetch`, a response with `ok = false`, or
a parsed body `{ meals }` (FavoritesPage.tsx lines 52–56). -/
inductive IdFetchResult where
  | netFail (msg : String)
  | httpFail
  | okBody (meals : Option (List Recipe))
  deriving Repr

/-- The per-id promise built by `favorites.map` (FavoritesPage.tsx lines
51–58): a non-ok response throws `Failed to fetch recipe ${recipeId}`;
on a parsed body, `data.meals[0]` is read — when `meals` is `null` this
read itself throws a `TypeError`, and when `meals` is an array it yields
its first element or `undefined` (here `Option.head?`). -/
def fetchOne (recipeId : String) (r : IdFetchResult) : Except String (Option Recipe) :=
  match r with
  | .netFail m => .error m
  | .httpFail => .error ("Failed to fetch recipe " ++ recipeId)
  | .okBody none => .error "TypeError: Cannot read properties of null (reading 0)"
  | .okBody (some ms) => .ok ms.head?

/-- `Promise.all` (FavoritesPage.tsx line 61): resolves with the list of
all values when every member promise resolves, and rejects with a
member's rejection otherwise (the temporally first rejection in the
platform; modelled here as the first in list order). -/
def promiseAll {α : Type} : List (Except String α) → Except String (List α)
  | [] => .ok []
  | r :: rest =>
    match r with
    | .error e => .error e
    | .ok v =>
      match promiseAll rest with
      | .error e => .error e
      | .ok vs => .ok (v :: vs)

/-- The `useState` slots of `FavoritesPage` (lines 22–24):
`favoriteRecipes`, `loading`, `error`. -/
structure FavPageState where
  favoriteRecipes : List Recipe
  loading : Bool
  error : Option String
  deriving DecidableEq, Repr

/-- The initial page state (FavoritesPage.tsx lines 22–24). -/
def favPageInit : FavPageState :=
  { favoriteRecipes := [], loading := false, error := none }

/-- The synchronous prefix of `fetchFavoriteRecipes` (FavoritesPage.tsx
lines 46–47): `setLoading(true); setError(null)` before any await. -/
def batchStart (s : FavPageState) : FavPageState :=
  { s with loading := true, error := none }

/-- The settlement tail of `fetchFavoriteRecipes` (FavoritesPage.tsx lines
49–70) for a batch issued over `favorites` against transport `env`: when
`Promise.all` resolves, the non-null results are stored
(`recipes.filter(Boolean)`, line 64); when it rejects, the error message
is stored and the recipes state is left untouched; the `finally` clause
stops loading either way. There is no cancellation signal and no
generation check before any of these mutations. -/
def batchSettle (favorites : List String) (env : String → IdFetchResult)
    (s : FavPageState) : FavPageState :=
  match promiseAll (favorites.map (fun recipeId => fetchOne recipeId (env recipeId))) with
  | .ok recipes =>
      { s with favoriteRecipes := recipes.filterMap (fun x => x), loading := false }
  | .error e => { s with error := some e, loading := false }

/-- The `FavoritesPage` effect body on a favorites change (FavoritesPage.tsx
lines 32–74), run to completion with no interleaved newer run: an empty
favorites array clears the recipes and returns; otherwise the batch runs
start-to-settle. The effect installs no cleanup, so a superseded run is
modelled by applying its `batchSettle` later (see the temporal claims). -/
def favoritesEffect (favorites : List String) (env : String → IdFetchResult)
    (s : FavPageState) : FavPageState :=
  if favorites.isEmpty then { s with favoriteRecipes := [] }
  else batchSettle favorites env (batchStart s)

/-- What `FavoritesPage` renders (lines 77–115). -/
inductive FavView where
  | spinner
  | errorView (msg : String)
  | emptyState
  | grid (recipes : List Recipe)
  deriving DecidableEq, Repr

/-- The render of `FavoritesPage` (lines 77–115): loading wins, then the
error banner, then the empty state, then the grid of fetched recipes. -/
def favRender (favorites : List String) (s : FavPageState) : FavView :=
  if s.loading then .spinner
  else
    match s.error with
    | some m => .errorView m
    | none => if favorites.isEmpty then .emptyState else .grid s.favoriteRecipes

/-- The number of recipe cards a view shows: only the grid shows any. -/
def renderedItemCount : FavView → Nat
  | .grid recipes => recipes.length
  | _ => 0

/-! ## Category page render (`src/pages/CategoryPage.tsx`) -/

/-- What `CategoryPage` renders (lines 41–80). -/
inductive CategoryView where
  | spinner
  | errorView (msg : String)
  | noResults
  | grid (recipes : List Recipe)
  deriving DecidableEq, Repr

/-- The render of `CategoryPage` (lines 41–80): loading, then the error
banner, then — when there is no payload yet or `meals` is `null` — the
"No recipes found" view, then the grid. -/
def categoryRender (s : FetchState MealsResponse) : CategoryView :=
  if s.loading then .spinner
  else
    match s.error with
    | some m => .errorView m
    | none =>
      match s.data with
      | none => .noResults
      | some body =>
        match body.meals with
        | none => .noResults
        | some recipes => .grid recipes

/-! ## Theorems for the Request-State Tracker claims -/

/-- Claim C1 is refuted on the code: after a first locator is bound
(`fetchStart` applies) and a second locator supersedes it (its cleanup
aborts the first run and the new run applies `fetchStart`), the first
run's settlement — the `AbortError` continuation of `fetchData` — still
mutates the tracker state: its `finally` clause flips `loading` from
`true` to `false` while the newer retrieval is still in flight. -/
theorem c1_counterexample :
    (fetchSettle FetchResolution.aborted
        (fetchStart (fetchStart (initState MealsResponse))) ≠
      fetchStart (fetchStart (initState MealsResponse))) ∧
    (fetchStart (fetchStart (initState MealsResponse))).loading = true ∧
    (fetchSettle FetchResolution.aborted
        (fetchStart (fetchStart (initState MealsResponse)))).loading = false := by
  refine ⟨?_, rfl, rfl⟩
  decide

/-- Claim C1 (amended): a retrieval superseded by a new locator or by
teardown is aborted, and its settlement continuation never mutates `data`
or `error` — in particular it never produces a failed transition — but
its `finally` clause does still set `loading` to `false` after the run is
no longer current. -/
theorem c1_superseded_settle {α : Type} (s : FetchState α) :
    (fetchSettle FetchResolution.aborted s).data = s.data ∧
    (fetchSettle FetchResolution.aborted s).error = s.error ∧
    (fetchSettle FetchResolution.aborted s).loading = false :=
  ⟨rfl, rfl, rfl⟩

/-- Claim C2 is refuted on the code: after a first locator succeeds with a
payload, binding a new locator transitions the tracker to pending
(`loading = true`) without clearing the previous payload, so a stale
payload is observable alongside the pending state. -/
theorem c2_counterexample :
    ((fetchStart (fetchSettle
        (FetchResolution.success { meals := some [{ idMeal := "52772" }] })
        (fetchStart (initState MealsResponse)))).loading = true) ∧
    ((fetchStart (fetchSettle
        (FetchResolution.success { meals := some [{ idMeal := "52772" }] })
        (fetchStart (initState MealsResponse)))).data ≠ none) := by
  refine ⟨rfl, ?_⟩
  decide

/-- Claim C2 (amended): the transition to pending on a new non-sentinel
locator sets `loading`, clears any previous error, and retains the
previous payload unchanged — the code never resets `data` before a new
retrieval, so a stale payload is observable alongside a pending (and,
after a failure, a failed) state. -/
theorem c2_pending_transition {α : Type} (s : FetchState α) :
    (fetchStart s).loading = true ∧
    (fetchStart s).error = none ∧
    (fetchStart s).data = s.data :=
  ⟨rfl, rfl, rfl⟩

/-- Claim C3 is refuted on the code: binding the sentinel locator after a
non-sentinel locator has succeeded issues no retrieval but also resets
nothing — the effect returns before any state mutation — so the tracker
keeps the previous payload instead of yielding the idle outcome. -/
theorem c3_counterexample :
    (bindSync none
        (fetchSettle (FetchResolution.success { meals := some [{ idMeal := "52772" }] })
          (fetchStart (initState MealsResponse))) =
      fetchSettle (FetchResolution.success { meals := some [{ idMeal := "52772" }] })
        (fetchStart (initState MealsResponse))) ∧
    ((fetchSettle (FetchResolution.success { meals := some [{ idMeal := "52772" }] })
        (fetchStart (initState MealsResponse))).data ≠ none) ∧
    issuesRequest none = false := by
  refine ⟨rfl, ?_, rfl⟩
  decide

/-- Claim C3 (amended): binding the sentinel locator issues no retrieval
and leaves the tracker state exactly as it was; on a tracker whose prior
state is the initial one this is the idle outcome, but a prior payload or
error from an earlier non-sentinel locator is retained, not cleared. -/
theorem c3_sentinel_noop {α : Type} (s : FetchState α) :
    issuesRequest none = false ∧
    bindSync none s = s ∧
    bindSync none (initState α) = initState α :=
  ⟨rfl, rfl, rfl⟩

/-- Claim C9: a transport-successful, parseable response whose body is
`{ "meals": null }` settles the tracker at succeeded: the payload is
stored, the error stays `null`, loading stops, and the category page
renders the no-results view, never the error view. -/
theorem c9_meals_null_is_success (s : FetchState MealsResponse) :
    (fetchSettle (FetchResolution.success { meals := none }) (fetchStart s)).data =
      some { meals := none } ∧
    (fetchSettle (FetchResolution.success { meals := none }) (fetchStart s)).error = none ∧
    (fetchSettle (FetchResolution.success { meals := none }) (fetchStart s)).loading = false ∧
    categoryRender (fetchSettle (FetchResolution.success { meals := none })
      (fetchStart s)) = CategoryView.noResults ∧
    ∀ m, categoryRender (fetchSettle (FetchResolution.success { meals := none })
      (fetchStart s)) ≠ CategoryView.errorView m := by
  refine ⟨rfl, rfl, rfl, rfl, ?_⟩
  intro m h
  exact CategoryView.noConfusion h

/-! ## Theorems for the batch hydration claims -/

/-- Helper: `Promise.all` rejects whenever one of its member promises
rejects. -/
theorem promiseAll_error_of_mem {α : Type} (rs : List (Except String α)) (e : String)
    (h : Except.error e ∈ rs) : ∃ e2, promiseAll rs = Except.error e2 := by
  induction rs with
  | nil => cases h
  | cons r rest ih =>
    cases h with
    | head => exact ⟨e, rfl⟩
    | tail _ hmem =>
      cases r with
      | error e1 => exact ⟨e1, rfl⟩
      | ok v =>
        obtain ⟨e2, he⟩ := ih hmem
        exact ⟨e2, by simp [promiseAll, he]⟩

/-- Helper: when any single per-id promise of the favorites batch rejects,
the whole effect ends with an aggregate error, the previous recipes state
is not replaced, and the page renders zero items. -/
theorem batch_fails_of_fetchOne_error (favorites : List String)
    (env : String → IdFetchResult) (s : FavPageState) (recipeId e : String)
    (hmem : recipeId ∈ favorites)
    (hfail : fetchOne recipeId (env recipeId) = Except.error e) :
    (∃ m, (favoritesEffect favorites env s).error = some m) ∧
    (favoritesEffect favorites env s).favoriteRecipes = s.favoriteRecipes ∧
    renderedItemCount (favRender favorites (favoritesEffect favorites env s)) = 0 := by
  have hne : favorites.isEmpty = false := by
    cases favorites with
    | nil => cases hmem
    | cons a l => rfl
  have hmap : Except.error e ∈ favorites.map (fun id => fetchOne id (env id)) := by
    rw [← hfail]
    exact List.mem_map_of_mem _ hmem
  obtain ⟨e2, he⟩ := promiseAll_error_of_mem _ e hmap
  refine ⟨⟨e2, ?_⟩, ?_, ?_⟩
  · simp [favoritesEffect, hne, batchSettle, he, batchStart]
  · simp [favoritesEffect, hne, batchSettle, he, batchStart]
  · simp [favoritesEffect, hne, batchSettle, he, batchStart, favRender, renderedItemCount]

/-- Claim C4: under the strict batch policy of `fetchFavoriteRecipes`,
if any single per-id retrieval fails then the whole batch fails with one
aggregate error message, the successful subset is not stored, and the
page renders zero items. -/
theorem c4_strict_batch_policy (favorites : List String)
    (env : String → IdFetchResult) (s : FavPageState) (recipeId e : String)
    (hmem : recipeId ∈ favorites)
    (hfail : fetchOne recipeId (env recipeId) = Except.error e) :
    (∃ m, (favoritesEffect favorites env s).error = some m) ∧
    (favoritesEffect favorites env s).favoriteRecipes = s.favoriteRecipes ∧
    renderedItemCount (favRender favorites (favoritesEffect favorites env s)) = 0 :=
  batch_fails_of_fetchOne_error favorites env s recipeId e hmem hfail

/-- A concrete two-id transport for exercising the strict batch policy:
id "1" resolves with one recipe, every other id fails with a non-ok
response. -/
def envStrict : String → IdFetchResult := fun id =>
  if id = "1" then IdFetchResult.okBody (some [{ idMeal := "1" }]) else IdFetchResult.httpFail

/-- Witness for C4 at favorites `["1", "2"]` where id "2" fails. -/
theorem c4_strict_batch_policy_witness :
    (("2" : String) ∈ ["1", "2"] ∧
      fetchOne "2" (envStrict "2") = Except.error "Failed to fetch recipe 2") ∧
    ((∃ m, (favoritesEffect ["1", "2"] envStrict favPageInit).error = some m) ∧
      (favoritesEffect ["1", "2"] envStrict favPageInit).favoriteRecipes =
        favPageInit.favoriteRecipes ∧
      renderedItemCount
        (favRender ["1", "2"] (favoritesEffect ["1", "2"] envStrict favPageInit)) = 0) :=
  ⟨⟨by decide, by rfl⟩,
    c4_strict_batch_policy ["1", "2"] envStrict favPageInit "2" "Failed to fetch recipe 2"
      (by decide) (by rfl)⟩

/-- A concrete transport where ids "1" and "2" both resolve with their
recipe. -/
def envBoth : String → IdFetchResult := fun id =>
  if id = "1" then IdFetchResult.okBody (some [{ idMeal := "1" }])
  else if id = "2" then IdFetchResult.okBody (some [{ idMeal := "2" }])
  else IdFetchResult.httpFail

/-- Claim C5 is refuted on the code: the batch effect installs no cleanup
and checks no generation token, so a superseded batch's settlement still
applies. Concretely: a batch over `["1"]` is in flight when the favorites
change to `["1", "2"]` starts a newer batch; the newer batch settles with
both recipes, and then the stale batch's settlement overwrites the
observed recipes back to `["1"]`'s result. -/
theorem c5_counterexample :
    (batchSettle ["1"] envBoth
        (batchSettle ["1", "2"] envBoth (batchStart (batchStart favPageInit))) ≠
      batchSettle ["1", "2"] envBoth (batchStart (batchStart favPageInit))) ∧
    (batchSettle ["1", "2"] envBoth
        (batchStart (batchStart favPageInit))).favoriteRecipes =
      [{ idMeal := "1" }, { idMeal := "2" }] ∧
    (batchSettle ["1"] envBoth
        (batchSettle ["1", "2"] envBoth
          (batchStart (batchStart favPageInit)))).favoriteRecipes =
      [{ idMeal := "1" }] := by
  refine ⟨?_, by rfl, by rfl⟩
  decide

/-- Claim C5 (amended): the batch re-runs in full whenever the favorites
array changes (for a non-empty array the effect always runs a fresh
start-to-settle batch), but a change does not supersede an in-flight
batch: there is no cancellation or generation check, so a superseded
batch's settlement still applies in full to whatever state it finds —
storing its recipes and stopping loading on success, or storing its error
on failure — and can overwrite a newer run's state. -/
theorem c5_no_supersession (favorites : List String) (env : String → IdFetchResult)
    (s : FavPageState) :
    (favorites.isEmpty = false →
      favoritesEffect favorites env s = batchSettle favorites env (batchStart s)) ∧
    (∀ recipes,
      promiseAll (favorites.map fun id => fetchOne id (env id)) = Except.ok recipes →
      batchSettle favorites env s =
        { favoriteRecipes := recipes.filterMap (fun x => x), loading := false,
          error := s.error }) ∧
    (∀ e,
      promiseAll (favorites.map fun id => fetchOne id (env id)) = Except.error e →
      batchSettle favorites env s =
        { favoriteRecipes := s.favoriteRecipes, loading := false, error := some e }) := by
  refine ⟨fun h => ?_, fun recipes h => ?_, fun e h => ?_⟩
  · simp [favoritesEffect, h]
  · simp [batchSettle, h]
  · simp [batchSettle, h]

/-- Witness for the amended C5: a stale one-id batch settling over a
state left by a newer run keeps that state's error slot but overwrites
the recipes and loading slots. -/
theorem c5_no_supersession_witness :
    (promiseAll ((["1"] : List String).map fun id => fetchOne id (envBoth id)) =
      Except.ok [some { idMeal := "1" }]) ∧
    batchSettle ["1"] envBoth
        { favoriteRecipes := [{ idMeal := "1" }, { idMeal := "2" }], loading := false,
          error := none } =
      { favoriteRecipes := [{ idMeal := "1" }], loading := false, error := none } :=
  ⟨by rfl,
    (c5_no_supersession ["1"] envBoth
        { favoriteRecipes := [{ idMeal := "1" }, { idMeal := "2" }], loading := false,
          error := none }).2.1
      [some { idMeal := "1" }] (by rfl)⟩

/-- Claim C10: during batch hydration, a favorite id whose lookup returns
a transport-successful body `{ "meals": null }` is treated as a failure —
the `data.meals[0]` read throws — which under the strict policy fails the
entire batch with an aggregate error and renders zero items. -/
theorem c10_null_meals_fails_batch (favorites : List String)
    (env : String → IdFetchResult) (s : FavPageState) (recipeId : String)
    (hmem : recipeId ∈ favorites)
    (hnull : env recipeId = IdFetchResult.okBody none) :
    (∃ m, (favoritesEffect favorites env s).error = some m) ∧
    renderedItemCount (favRender favorites (favoritesEffect favorites env s)) = 0 := by
  have hfail : fetchOne recipeId (env recipeId) =
      Except.error "TypeError: Cannot read properties of null (reading 0)" := by
    rw [hnull]
    rfl
  obtain ⟨h1, _, h3⟩ := batch_fails_of_fetchOne_error favorites env s recipeId _ hmem hfail
  exact ⟨h1, h3⟩

/-- A concrete transport where id "1" resolves with a recipe and id "2"
resolves successfully with the body `{ "meals": null }`. -/
def envNullMeals : String → IdFetchResult := fun id =>
  if id = "1" then IdFetchResult.okBody (some [{ idMeal := "1" }])
  else IdFetchResult.okBody none

/-- Witness for C10 at favorites `["1", "2"]` where id "2" returns
`{ "meals": null }` and id "1" succeeds. -/
theorem c10_null_meals_fails_batch_witness :
    (("2" : String) ∈ ["1", "2"] ∧ envNullMeals "2" = IdFetchResult.okBody none) ∧
    ((∃ m, (favoritesEffect ["1", "2"] envNullMeals favPageInit).error = some m) ∧
      renderedItemCount
        (favRender ["1", "2"]
          (favoritesEffect ["1", "2"] envNullMeals favPageInit)) = 0) :=
  ⟨⟨by decide, by rfl⟩,
    c10_null_meals_fails_batch ["1", "2"] envNullMeals favPageInit "2" (by decide) (by rfl)⟩

/-! ## Round-trip of the slot serialization -/

/-- Helper: the string parser undoes the escaping of a string value and
stops at its closing quote. -/
theorem parseString_escString (s rest : List Char) :
    parseString (escString s ++ '"' :: rest) = some (s, rest) := by
  induction s with
  | nil =>
    rw [escString, List.nil_append, parseString.eq_def]
    simp
  | cons c cs ih =>
    by_cases hc : c = '"' ∨ c = '\\'
    · rw [escString, escChar, if_pos hc]
      rw [List.cons_append, List.cons_append, parseString.eq_def]
      simp [ih]
    · push_neg at hc
      rw [escString, escChar, if_neg (by tauto), List.cons_append, List.nil_append,
        parseString.eq_def]
      simp [hc.1, hc.2, ih]

/-- Helper: the element parser undoes the element serialization, given
fuel beyond the number of remaining elements. -/
theorem parseItems_encode (l : List String) (s : String) (fuel : Nat)
    (hfuel : l.length < fuel) :
    parseItems fuel (encodeItem s ++ encodeRest l) = some (s :: l) := by
  induction l generalizing s fuel with
  | nil =>
    cases fuel with
    | zero => omega
    | succ f =>
      rw [encodeItem, encodeRest]
      simp only [List.append_assoc, List.cons_append, List.nil_append]
      simp only [parseItems, parseString_escString]
      rfl
  | cons t l' ih =>
    cases fuel with
    | zero => omega
    | succ f =>
      have ih' := ih t f (by simp at hfuel ⊢; omega)
      rw [encodeItem, encodeRest]
      simp only [List.append_assoc, List.cons_append, List.nil_append]
      simp only [parseItems, parseString_escString]
      rw [ih']
      rfl

/-- Helper: the serialized rest of an array is at least as long as the
number of elements it carries. -/
theorem length_le_encodeRest (l : List String) : l.length ≤ (encodeRest l).length := by
  induction l with
  | nil => simp [encodeRest]
  | cons s l' ih =>
    simp only [encodeRest, List.length_cons, List.length_append]
    omega

/-- Helper: slot initialization's parse undoes `setValue`'s
serialization on every favorites value. -/
theorem jsonParse_jsonStringify (l : List String) :
    jsonParse (jsonStringify l) = some l := by
  cases l with
  | nil => rfl
  | cons s rest =>
    have hlen : rest.length < (encodeItem s ++ encodeRest rest).length + 1 := by
      have := length_le_encodeRest rest
      simp only [List.length_append]
      omega
    rw [jsonStringify, jsonParse]
    exact parseItems_encode rest s _ hlen

/-- Helper: a serialized favorites value is never the empty text, so a
persisted slot never hits the empty-string fallback on re-read. -/
theorem jsonStringify_ne_nil (l : List String) : jsonStringify l ≠ [] := by
  cases l <;> simp [jsonStringify]

/-! ## Theorems for the favorites access-point claims -/

/-- Helper: the id just added is always in the updated favorites value. -/
theorem mem_addFavoriteUpdater (recipeId : String) (l : List String) :
    recipeId ∈ addFavoriteUpdater recipeId l := by
  rw [addFavoriteUpdater]
  split
  · next h => simpa using h
  · simp

/-- Helper: membership test after an add, in the Bool form `includes`
uses. -/
theorem contains_addFavoriteUpdater (recipeId : String) (l : List String) :
    (addFavoriteUpdater recipeId l).contains recipeId = true := by
  simpa using mem_addFavoriteUpdater recipeId l

/-- Helper: removing an absent id filters nothing. -/
theorem remove_not_mem_noop (recipeId : String) (l : List String) (h : recipeId ∉ l) :
    removeFavoriteUpdater recipeId l = l := by
  rw [removeFavoriteUpdater, List.filter_eq_self]
  intro a ha
  simp only [bne_iff_ne, ne_eq, decide_eq_true_eq]
  exact fun he => h (he ▸ ha)

/-- Helper: on a duplicate-free value, the remove filter deletes exactly
the one occurrence of the id. -/
theorem remove_eq_erase (recipeId : String) (l : List String) (h : l.Nodup) :
    removeFavoriteUpdater recipeId l = l.erase recipeId := by
  induction l with
  | nil => rfl
  | cons x xs ih =>
    rw [List.nodup_cons] at h
    by_cases hx : x = recipeId
    · subst hx
      have hbne : (x != x) = false := by simp
      rw [removeFavoriteUpdater, List.filter_cons, hbne]
      simp only [Bool.false_eq_true, if_false, List.erase_cons_head]
      exact remove_not_mem_noop x xs h.1
    · have hbne : (x != recipeId) = true := by simp [hx]
      rw [removeFavoriteUpdater, List.filter_cons, hbne]
      simp only [if_true]
      rw [List.erase_cons_tail (by simp [hx])]
      exact congrArg (x :: ·) (ih h.2)

/-- Claim C6: the favorites access point equals the duplicate-free
ordered-sequence reference model: `add` is a no-op on a present id and
appends an absent id at the end; `remove` is a no-op on an absent id and
deletes a present id from a duplicate-free value; the list after
`add("42")` then `add("7")` is `["42", "7"]` in insertion order; and both
mutations persist their result to the durable key. -/
theorem c6_reference_model :
    (∀ (recipeId : String) (l : List String), recipeId ∈ l →
      addFavoriteUpdater recipeId l = l) ∧
    (∀ (recipeId : String) (l : List String), recipeId ∉ l →
      addFavoriteUpdater recipeId l = l ++ [recipeId]) ∧
    (∀ (recipeId : String) (l : List String), recipeId ∉ l →
      removeFavoriteUpdater recipeId l = l) ∧
    (∀ (recipeId : String) (l : List String), l.Nodup →
      removeFavoriteUpdater recipeId l = l.erase recipeId) ∧
    (favoritesList (addFavorite "7" (addFavorite "42" emptySlot).1).1 = ["42", "7"]) ∧
    (∀ (s : SlotState) (recipeId : String), s.store.writeFails = false →
      (addFavorite recipeId s).1.store.contents favoritesKey =
        some (jsonStringify (addFavoriteUpdater recipeId s.memory))) ∧
    (∀ (s : SlotState) (recipeId : String), s.store.writeFails = false →
      (removeFavorite recipeId s).1.store.contents favoritesKey =
        some (jsonStringify (removeFavoriteUpdater recipeId s.memory))) := by
  refine ⟨?_, ?_, fun r l h => remove_not_mem_noop r l h,
    fun r l h => remove_eq_erase r l h, by rfl, ?_, ?_⟩
  · intro recipeId l h
    simp [addFavoriteUpdater, h]
  · intro recipeId l h
    simp [addFavoriteUpdater, h]
  · intro s recipeId h
    simp [addFavorite, setValue, h]
  · intro s recipeId h
    simp [removeFavorite, setValue, h]

/-- Witness for C6 at concrete ids and values. -/
theorem c6_reference_model_witness :
    (("42" : String) ∈ ["42"] ∧ addFavoriteUpdater "42" ["42"] = ["42"]) ∧
    (("7" : String) ∉ ["42"] ∧ addFavoriteUpdater "7" ["42"] = ["42", "7"]) ∧
    (("9" : String) ∉ ["42", "7"] ∧ removeFavoriteUpdater "9" ["42", "7"] = ["42", "7"]) ∧
    (["42", "7"].Nodup ∧
      removeFavoriteUpdater "42" ["42", "7"] = ["42", "7"].erase "42") ∧
    (emptySlot.store.writeFails = false ∧
      (addFavorite "42" emptySlot).1.store.contents favoritesKey =
        some (jsonStringify (addFavoriteUpdater "42" emptySlot.memory))) :=
  ⟨⟨by decide, c6_reference_model.1 "42" ["42"] (by decide)⟩,
    ⟨by decide, c6_reference_model.2.1 "7" ["42"] (by decide)⟩,
    ⟨by decide, c6_reference_model.2.2.1 "9" ["42", "7"] (by decide)⟩,
    ⟨by decide, c6_reference_model.2.2.2.1 "42" ["42", "7"] (by decide)⟩,
    ⟨rfl, c6_reference_model.2.2.2.2.2.1 emptySlot "42" rfl⟩⟩

/-- Claim C7: with a non-failing durable store, after `add(id)` a fresh
slot initialized from the same durable key recovers exactly the persisted
favorites value — initialization's parse is a left inverse of `setValue`'s
serialization — and in particular that value contains `id`. -/
theorem c7_persistence_roundtrip (s : SlotState) (recipeId : String)
    (hw : s.store.writeFails = false) (hr : s.store.readFails = false) :
    slotInit (addFavorite recipeId s).1.store favoritesKey [] =
      addFavoriteUpdater recipeId s.memory ∧
    recipeId ∈ slotInit (addFavorite recipeId s).1.store favoritesKey [] := by
  have hcontents : (addFavorite recipeId s).1.store.contents favoritesKey =
      some (jsonStringify (addFavoriteUpdater recipeId s.memory)) := by
    simp [addFavorite, setValue, hw]
  have hread : (addFavorite recipeId s).1.store.readFails = false := by
    simp [addFavorite, setValue, hw, hr]
  have h1 : slotInit (addFavorite recipeId s).1.store favoritesKey [] =
      addFavoriteUpdater recipeId s.memory := by
    rw [slotInit, hread, hcontents]
    simp [jsonStringify_ne_nil, jsonParse_jsonStringify]
  exact ⟨h1, h1 ▸ mem_addFavoriteUpdater recipeId s.memory⟩

/-- Witness for C7: a fresh slot over the store left by `add("42")` on an
empty profile yields `["42"]`. -/
theorem c7_persistence_roundtrip_witness :
    (emptySlot.store.writeFails = false ∧ emptySlot.store.readFails = false) ∧
    (slotInit (addFavorite "42" emptySlot).1.store favoritesKey [] =
        addFavoriteUpdater "42" emptySlot.memory ∧
      ("42" : String) ∈ slotInit (addFavorite "42" emptySlot).1.store favoritesKey []) :=
  ⟨⟨rfl, rfl⟩, c7_persistence_roundtrip emptySlot "42" rfl rfl⟩

/-- Claim C8: when the durable store throws on write, `setValue` has
already updated the in-memory value, so `add(id)` still makes
`contains(id)` true for the current session; the failure is logged (the
flag) and swallowed — the operation returns normally with the durable
contents untouched. -/
theorem c8_write_failure_swallowed (s : SlotState) (recipeId : String)
    (hw : s.store.writeFails = true) :
    isFavorite recipeId (addFavorite recipeId s).1 = true ∧
    (addFavorite recipeId s).2 = true ∧
    (addFavorite recipeId s).1.store = s.store := by
  refine ⟨?_, ?_, ?_⟩
  · simp only [addFavorite, setValue, hw, isFavorite]
    simpa using mem_addFavoriteUpdater recipeId s.memory
  · simp [addFavorite, setValue, hw]
  · simp [addFavorite, setValue, hw]

/-- A slot whose durable store throws on every write. -/
def failingWriteSlot : SlotState :=
  { memory := [],
    store := { contents := fun _ => none, readFails := false, writeFails := true } }

/-- Witness for C8 on a store that throws on write. -/
theorem c8_write_failure_swallowed_witness :
    failingWriteSlot.store.writeFails = true ∧
    (isFavorite "42" (addFavorite "42" failingWriteSlot).1 = true ∧
      (addFavorite "42" failingWriteSlot).2 = true ∧
      (addFavorite "42" failingWriteSlot).1.store = failingWriteSlot.store) :=
  ⟨rfl, c8_write_failure_swallowed failingWriteSlot "42" rfl⟩

end Cookbook
